import Mathlib

/-!
Shallow embedding of the FactoryManager class (src/factorymanager.py).

The Python class drives a Docker container and runs a remote-control binary
(robotgo-cli) inside it.  We embed:

* the gateway `__command` (here `command`), which runs a token vector inside
  the container, raises on a non-zero exit code and strips the output on
  success;
* the domain methods the claims are about (`mouse_click`, `mouse_toggle`,
  `window_activate`, `screen_capture`, `screen_size`);
* the lifecycle methods `start`, `stop` and
  `install_robotgo_cli_in_container`.

The Docker runtime is modelled as an oracle (`Oracle` for exec calls of the
gateway, `Runtime` for the lifecycle calls).  Every embedded method returns,
besides its Python return value or raised exception (`Except PyError`), the
list of externally visible effects it performed (`List Ev`), so that claims
of the form "the gateway is never invoked" are statable.
-/

namespace FM

/-- The Python exception classes appearing in factorymanager.py.  Validation
failures are `ValueError` in the source; command, download and startup
failures are bare `Exception` raises distinguished by their message;
`attributeError` models the implicit failure of calling a method on `None`;
`runtimeError` stands for an arbitrary exception raised by the docker
runtime collaborator. -/
inductive PyError where
  | valueError (msg : String)
  | exception (msg : String)
  | attributeError (msg : String)
  | runtimeError (msg : String)
deriving DecidableEq, Repr

/-- Result of `container.exec_run`: exit code plus decoded combined output. -/
structure ExecResult where
  exit_code : Int
  output : String
deriving DecidableEq, Repr

/-- Externally visible effects of the manager, for stating invocation claims. -/
inductive Ev where
  | getContainer
  | createContainer
  | reloadStatus
  | startSignal
  | sleepWait
  | execShell (s : String)
  | execTokens (c : List String)
  | stopSignal
deriving DecidableEq, Repr

/-- The mutable state of a FactoryManager instance that the claims depend on:
`self.container`, which is `None` until `start` attaches or creates. -/
structure FMState where
  container : Option Unit
deriving DecidableEq, Repr

/-- Response of the container runtime to an exec of a token vector. -/
def Oracle := List String → ExecResult

/-- `self.robotgo_cli_path`, fixed in `__init__`. -/
def robotgo_cli_path : String := "/usr/local/bin/robotgo-cli"

/-- Characters stripped by Python `str.strip()` (ASCII whitespace). -/
def isPySpace (c : Char) : Bool :=
  c == ' ' || c == '\t' || c == '\n' || c == '\r' || c == '\x0b' || c == '\x0c'

/-- Embedding of Python `str.strip()` with no argument: remove leading and
trailing whitespace characters. -/
def pyStrip (s : String) : String :=
  String.mk (((s.data.dropWhile isPySpace).reverse.dropWhile isPySpace).reverse)

/-- Written from the words of the spec, for comparison with the source:
"returns the output text with trailing whitespace trimmed", i.e. a pure
rstrip that keeps leading whitespace. -/
def rstripSpec (s : String) : String :=
  String.mk ((s.data.reverse.dropWhile isPySpace).reverse)

/-- Embedding of `FactoryManager.__command` (the Execution Gateway).
Python: builds `cmd = [self.robotgo_cli_path] + command_args`, calls
`self.container.exec_run(cmd)`, raises `Exception` with the joined command
and the decoded output when the exit code is non-zero, and otherwise
returns the decoded output stripped.  When `self.container` is `None`
the attribute access itself raises before any exec happens. -/
def command (st : FMState) (run : Oracle) (command_args : List String) :
    Except PyError String × List Ev :=
  match st.container with
  | none =>
      (Except.error (PyError.attributeError
        "NoneType object has no attribute exec_run"), [])
  | some _ =>
      let cmd := robotgo_cli_path :: command_args
      let r := run cmd
      if r.exit_code ≠ 0 then
        (Except.error (PyError.exception
          ("Command \x27" ++ String.intercalate " " cmd ++
            "\x27 failed with error: " ++ r.output)),
         [Ev.execTokens cmd])
      else
        (Except.ok (pyStrip r.output), [Ev.execTokens cmd])

/-- Embedding of `FactoryManager.mouse_click`. -/
def mouse_click (st : FMState) (run : Oracle) (button : String) (double : Bool) :
    Except PyError String × List Ev :=
  if button ∉ ["left", "right", "middle", "wheelLeft", "wheelRight"] then
    (Except.error (PyError.valueError
      "Invalid mouse button. Choose from left, right, middle, wheelLeft, wheelRight."), [])
  else
    command st run
      (["mouse", "click", "--button", button] ++
        (if double then ["--double", "true"] else []))

/-- Embedding of `FactoryManager.mouse_toggle`.  Note the source validates
only `state`; the `button` argument is passed through unchecked. -/
def mouse_toggle (st : FMState) (run : Oracle) (button : String) (state : String) :
    Except PyError String × List Ev :=
  if state ∉ ["down", "up"] then
    (Except.error (PyError.valueError
      "state must be either \x27down\x27 or \x27up\x27"), [])
  else
    command st run ["mouse", "toggle", "--button", button, "--state", state]

/-- Python truthiness of an optional string (`if name:`):
false exactly for `None` and the empty string. -/
def pyTruthyStr : Option String → Bool
  | none => false
  | some s => !(s == "")

/-- Python truthiness of an optional integer (`elif pid and ...`):
false exactly for `None` and `0`. -/
def pyTruthyInt : Option Int → Bool
  | none => false
  | some n => !(n == 0)

/-- Embedding of `FactoryManager.window_activate`.  Python:
`if name: ... elif pid and isinstance(pid, int): ... else: raise ValueError`.
The `isinstance` conjunct always holds in the typed embedding. -/
def window_activate (st : FMState) (run : Oracle)
    (name : Option String) (pid : Option Int) :
    Except PyError String × List Ev :=
  if pyTruthyStr name then
    command st run ["window", "activate", "--name", name.getD ""]
  else if pyTruthyInt pid then
    command st run ["window", "activate", "--pid", toString (pid.getD 0)]
  else
    (Except.error (PyError.valueError
      "Please provide either a window name or a valid pid."), [])

/-- Embedding of `FactoryManager.screen_capture`.  The source loops the
non-negativity check over `[x, y, width, height]` in that order before
looking at `full`; here the loop is unrolled. -/
def screen_capture (st : FMState) (run : Oracle)
    (x y width height : Int) (full : Bool) :
    Except PyError String × List Ev :=
  if x < 0 then
    (Except.error (PyError.valueError "x must be a non-negative integer"), [])
  else if y < 0 then
    (Except.error (PyError.valueError "y must be a non-negative integer"), [])
  else if width < 0 then
    (Except.error (PyError.valueError "width must be a non-negative integer"), [])
  else if height < 0 then
    (Except.error (PyError.valueError "height must be a non-negative integer"), [])
  else if full then
    command st run ["screen", "capture", "--full"]
  else
    command st run ["screen", "capture", "--x", toString x, "--y", toString y,
      "--width", toString width, "--height", toString height]

/-- Embedding of `FactoryManager.screen_size` (a domain call with no
arguments, used to observe gateway behaviour outside a session). -/
def screen_size (st : FMState) (run : Oracle) : Except PyError String × List Ev :=
  command st run ["screen", "size"]

/-- Outcome of `self.client.containers.get(self.container_name)`:
found, `NotFound` (caught by the source), or some other raised error. -/
inductive GetOutcome where
  | found
  | notFound
  | getError (e : PyError)
deriving DecidableEq, Repr

/-- Responses of the docker runtime collaborator to the lifecycle calls made
by `start`, `stop` and the installer.  `reload1` and `reload2` are the
statuses observed at the first and second `reload`; `execShellRun` answers
the shell-string execs of the installer. -/
structure Runtime where
  getOutcome : GetOutcome
  runOutcome : Except PyError Unit
  reload1 : Except PyError String
  startOutcome : Except PyError Unit
  reload2 : Except PyError String
  execShellRun : String → ExecResult
  stopOutcome : Except PyError Unit

/-- The existence probe command of the installer. -/
def check_cmd : String := "ls " ++ robotgo_cli_path

/-- The download command of the installer. -/
def curl_cmd : String :=
  "curl -L -o " ++ robotgo_cli_path ++
    " https://github.com/sampagon/robotgo-cli/releases/latest/download/robotgo-cli"

/-- The permission command of the installer. -/
def chmod_cmd : String := "chmod +x " ++ robotgo_cli_path

/-- Embedding of `FactoryManager.install_robotgo_cli_in_container`
(the Bootstrap Installer): probe, then download and chmod only when the
probe fails, raising on a failing download or chmod. -/
def install_robotgo_cli_in_container (rt : Runtime) :
    Except PyError Unit × List Ev :=
  let probe := rt.execShellRun check_cmd
  if probe.exit_code == 0 then
    (Except.ok (), [Ev.execShell check_cmd])
  else
    let dl := rt.execShellRun curl_cmd
    if dl.exit_code ≠ 0 then
      (Except.error (PyError.exception
        ("Failed to download robotgo-cli in container: " ++ dl.output)),
       [Ev.execShell check_cmd, Ev.execShell curl_cmd])
    else
      let ch := rt.execShellRun chmod_cmd
      if ch.exit_code ≠ 0 then
        (Except.error (PyError.exception
          ("Failed to chmod robotgo-cli in container: " ++ ch.output)),
         [Ev.execShell check_cmd, Ev.execShell curl_cmd, Ev.execShell chmod_cmd])
      else
        (Except.ok (),
         [Ev.execShell check_cmd, Ev.execShell curl_cmd, Ev.execShell chmod_cmd])

/-- Embedding of `FactoryManager.stop`: if a container handle exists, issue
the stop signal; a failure of the signal is caught and only printed.  The
handle itself is not cleared, so the state is unchanged. -/
def stop (rt : Runtime) (st : FMState) : Except PyError Unit × List Ev :=
  match st.container with
  | some _ =>
      match rt.stopOutcome with
      | Except.ok _ => (Except.ok (), [Ev.stopSignal])
      | Except.error _ => (Except.ok (), [Ev.stopSignal])
  | none => (Except.ok (), [])

/-- The tail of `start` after the bootstrap step is reached: run the
installer and propagate its outcome. -/
def startInstallStep (rt : Runtime) (st : FMState) (evs : List Ev) :
    Except PyError Unit × FMState × List Ev :=
  let r := install_robotgo_cli_in_container rt
  (r.1, st, evs ++ r.2)

/-- The part of `start` after the container handle has been attached or
created (source lines 103 to 112): reload, at most one start signal with one
fixed wait and one further reload, raise when still not running, then
install. -/
def startAfterAttach (container_name : String) (rt : Runtime) (st : FMState)
    (evs : List Ev) : Except PyError Unit × FMState × List Ev :=
  match rt.reload1 with
  | Except.error e => (Except.error e, st, evs ++ [Ev.reloadStatus])
  | Except.ok status1 =>
      if status1 ≠ "running" then
        match rt.startOutcome with
        | Except.error e =>
            (Except.error e, st, evs ++ [Ev.reloadStatus, Ev.startSignal])
        | Except.ok _ =>
            match rt.reload2 with
            | Except.error e =>
                (Except.error e, st,
                 evs ++ [Ev.reloadStatus, Ev.startSignal, Ev.sleepWait, Ev.reloadStatus])
            | Except.ok status2 =>
                if status2 ≠ "running" then
                  (Except.error (PyError.exception
                    ("Container \x27" ++ container_name ++
                      "\x27 failed to start (status: " ++ status2 ++ ").")),
                   st,
                   evs ++ [Ev.reloadStatus, Ev.startSignal, Ev.sleepWait, Ev.reloadStatus])
                else
                  startInstallStep rt st
                    (evs ++ [Ev.reloadStatus, Ev.startSignal, Ev.sleepWait, Ev.reloadStatus])
      else
        startInstallStep rt st (evs ++ [Ev.reloadStatus])

/-- The body of the outer `try` of `start`: attach to the container by name,
create it on `NotFound`, then proceed with `startAfterAttach`.  An error
raised by the lookup (other than `NotFound`) or by the creation leaves the
stored handle as it was. -/
def startBody (container_name : String) (rt : Runtime) (st : FMState) :
    Except PyError Unit × FMState × List Ev :=
  match rt.getOutcome with
  | GetOutcome.getError e => (Except.error e, st, [Ev.getContainer])
  | GetOutcome.found =>
      startAfterAttach container_name rt ⟨some ()⟩ [Ev.getContainer]
  | GetOutcome.notFound =>
      match rt.runOutcome with
      | Except.error e => (Except.error e, st, [Ev.getContainer, Ev.createContainer])
      | Except.ok _ =>
          startAfterAttach container_name rt ⟨some ()⟩
            [Ev.getContainer, Ev.createContainer]

/-- Embedding of `FactoryManager.start`: the body wrapped in
`except Exception: print; self.stop(); raise` — on any failure of the body
the cleanup `stop` runs on the state the body left behind and the original
error is re-raised. -/
def start (container_name : String) (rt : Runtime) (st : FMState) :
    Except PyError Unit × FMState × List Ev :=
  let r := startBody container_name rt st
  match r.1 with
  | Except.ok _ => r
  | Except.error e =>
      let s := stop rt r.2.1
      (Except.error e, r.2.1, r.2.2 ++ s.2)

/-- A runtime where everything succeeds: the container is found, already
running, the tool is already installed and the stop signal succeeds. -/
def rtHappy : Runtime :=
  ⟨GetOutcome.found, Except.ok (), Except.ok "running", Except.ok (),
   Except.ok "running", fun _ => ⟨0, ""⟩, Except.ok ()⟩

/-- A runtime whose container lookup raises and whose stop signal also
fails, exercising the cleanup path of `start`. -/
def rtLookupBoom : Runtime :=
  ⟨GetOutcome.getError (PyError.runtimeError "boom"), Except.ok (),
   Except.ok "running", Except.ok (), Except.ok "running",
   fun _ => ⟨0, ""⟩, Except.error (PyError.runtimeError "stop boom")⟩

/-- A runtime where the container is found stopped and never reaches the
running status even after the start signal. -/
def rtNeverRuns : Runtime :=
  ⟨GetOutcome.found, Except.ok (), Except.ok "created", Except.ok (),
   Except.ok "exited", fun _ => ⟨0, ""⟩, Except.ok ()⟩

/-- A runtime where the container is found but the first status refresh
raises, and the stop signal of the cleanup path also fails. -/
def rtReloadBoom : Runtime :=
  ⟨GetOutcome.found, Except.ok (), Except.error (PyError.runtimeError "reload boom"),
   Except.ok (), Except.ok "running", fun _ => ⟨0, ""⟩,
   Except.error (PyError.runtimeError "stop boom")⟩

/- ------------------------------------------------------------------ -/
/- Helper lemmas about the gateway and about Python strip.            -/
/- ------------------------------------------------------------------ -/

/-- Unfolding of `pyStrip` at the level of character lists. -/
theorem pyStrip_data (s : String) :
    (pyStrip s).data =
      ((s.data.dropWhile isPySpace).reverse.dropWhile isPySpace).reverse := rfl

/-- The first element surviving `dropWhile p` does not satisfy `p`. -/
theorem dropWhile_cons_false (p : Char → Bool) (l : List Char) (hd : Char) (tl : List Char)
    (h : l.dropWhile p = hd :: tl) : p hd = false := by
  induction l with
  | nil => simp [List.dropWhile] at h
  | cons x xs ih =>
    rw [List.dropWhile_cons] at h
    by_cases hx : p x
    · rw [if_pos hx] at h
      exact ih h
    · rw [if_neg hx] at h
      cases h
      simpa using hx

/-- Stripping from both ends with `dropWhile`, at the list level: the result
is an infix of the input, everything removed satisfies `p`, and neither end
of the result satisfies `p`. -/
theorem stripCore_spec (p : Char → Bool) (l : List Char) :
    ∃ pre post,
      l = pre ++ ((l.dropWhile p).reverse.dropWhile p).reverse ++ post ∧
      pre.all p = true ∧ post.all p = true ∧
      (∀ hd tl, ((l.dropWhile p).reverse.dropWhile p).reverse = hd :: tl → p hd = false) ∧
      (∀ hd tl, (l.dropWhile p).reverse.dropWhile p = hd :: tl → p hd = false) := by
  have h2 : (l.dropWhile p).reverse.takeWhile p ++ (l.dropWhile p).reverse.dropWhile p
      = (l.dropWhile p).reverse := List.takeWhile_append_dropWhile p (l.dropWhile p).reverse
  have h3 : l.dropWhile p =
      ((l.dropWhile p).reverse.dropWhile p).reverse ++
        ((l.dropWhile p).reverse.takeWhile p).reverse := by
    calc l.dropWhile p = (l.dropWhile p).reverse.reverse := (List.reverse_reverse _).symm
    _ = ((l.dropWhile p).reverse.takeWhile p ++ (l.dropWhile p).reverse.dropWhile p).reverse := by
          rw [h2]
    _ = ((l.dropWhile p).reverse.dropWhile p).reverse ++
          ((l.dropWhile p).reverse.takeWhile p).reverse := by
          rw [List.reverse_append]
  refine ⟨l.takeWhile p, ((l.dropWhile p).reverse.takeWhile p).reverse, ?_, ?_, ?_, ?_, ?_⟩
  · calc l = l.takeWhile p ++ l.dropWhile p := (List.takeWhile_append_dropWhile p l).symm
    _ = l.takeWhile p ++
          (((l.dropWhile p).reverse.dropWhile p).reverse ++
            ((l.dropWhile p).reverse.takeWhile p).reverse) := by rw [← h3]
    _ = l.takeWhile p ++ ((l.dropWhile p).reverse.dropWhile p).reverse ++
          ((l.dropWhile p).reverse.takeWhile p).reverse := by rw [List.append_assoc]
  · rw [List.all_eq_true]
    intro x hx
    exact List.mem_takeWhile_imp hx
  · rw [List.all_eq_true]
    intro x hx
    rw [List.mem_reverse] at hx
    exact List.mem_takeWhile_imp hx
  · intro hd tl hcons
    have hm2 : l.dropWhile p = hd :: (tl ++ ((l.dropWhile p).reverse.takeWhile p).reverse) := by
      conv_lhs => rw [h3]
      rw [hcons]
      simp
    exact dropWhile_cons_false p l hd _ hm2
  · intro hd tl hcons
    exact dropWhile_cons_false p (l.dropWhile p).reverse hd tl hcons

/-- Specification of `pyStrip`: the stripped string is an infix of the
input, the removed prefix and suffix are whitespace, and the result neither
starts nor ends with a whitespace character. -/
theorem pyStrip_spec (s : String) :
    ∃ pre post,
      s.data = pre ++ (pyStrip s).data ++ post ∧
      pre.all isPySpace = true ∧ post.all isPySpace = true ∧
      (∀ hd tl, (pyStrip s).data = hd :: tl → isPySpace hd = false) ∧
      (∀ hd tl, (pyStrip s).data.reverse = hd :: tl → isPySpace hd = false) := by
  obtain ⟨pre, post, hsplit, hpre, hpost, hfst, hlst⟩ := stripCore_spec isPySpace s.data
  refine ⟨pre, post, ?_, hpre, hpost, ?_, ?_⟩
  · rw [pyStrip_data]
    exact hsplit
  · intro hd tl h
    exact hfst hd tl (by rw [← pyStrip_data]; exact h)
  · intro hd tl h
    refine hlst hd tl ?_
    rw [pyStrip_data, List.reverse_reverse] at h
    exact h

/-- The gateway without a container handle: the attribute access on `None`
raises before anything is executed. -/
theorem command_of_none (st : FMState) (run : Oracle) (args : List String)
    (hc : st.container = none) :
    command st run args =
      (Except.error (PyError.attributeError
        "NoneType object has no attribute exec_run"), []) := by
  simp [command, hc]

/-- The gateway on a zero exit code: returns the stripped output, after
executing exactly the one encoded command. -/
theorem command_of_exit_zero (st : FMState) (run : Oracle) (args : List String)
    (hc : st.container = some ())
    (h0 : (run (robotgo_cli_path :: args)).exit_code = 0) :
    command st run args =
      (Except.ok (pyStrip (run (robotgo_cli_path :: args)).output),
       [Ev.execTokens (robotgo_cli_path :: args)]) := by
  simp [command, hc, h0]

/-- The gateway on a non-zero exit code: raises with the joined command and
the decoded output in the message, after executing exactly the one encoded
command. -/
theorem command_of_exit_nonzero (st : FMState) (run : Oracle) (args : List String)
    (hc : st.container = some ())
    (h0 : (run (robotgo_cli_path :: args)).exit_code ≠ 0) :
    command st run args =
      (Except.error (PyError.exception
        ("Command \x27" ++ String.intercalate " " (robotgo_cli_path :: args) ++
          "\x27 failed with error: " ++ (run (robotgo_cli_path :: args)).output)),
       [Ev.execTokens (robotgo_cli_path :: args)]) := by
  simp [command, hc, h0]

/-- Whatever the exit code, a gateway call with a container handle spawns
exactly the one encoded command. -/
theorem command_events (st : FMState) (run : Oracle) (args : List String)
    (hc : st.container = some ()) :
    (command st run args).2 = [Ev.execTokens (robotgo_cli_path :: args)] := by
  by_cases h0 : (run (robotgo_cli_path :: args)).exit_code = 0
  · rw [command_of_exit_zero st run args hc h0]
  · rw [command_of_exit_nonzero st run args hc h0]

/-- `stop` never raises, whatever the state and the runtime response. -/
theorem stop_never_raises (rt : Runtime) (st : FMState) :
    (stop rt st).1 = Except.ok () := by
  rcases st with ⟨c⟩
  cases c with
  | none => rfl
  | some u =>
    cases u
    simp only [stop]
    cases rt.stopOutcome <;> rfl

/-- With a container handle, `stop` issues exactly the stop signal, also
when the runtime signal fails. -/
theorem stop_snd_some (rt : Runtime) (st : FMState) (hc : st.container = some ()) :
    (stop rt st).2 = [Ev.stopSignal] := by
  rcases st with ⟨c⟩
  cases c with
  | none => simp at hc
  | some u =>
    cases u
    simp only [stop]
    cases rt.stopOutcome <;> rfl

/-- Without a container handle, `stop` is a no-op. -/
theorem stop_of_none (rt : Runtime) (st : FMState) (hc : st.container = none) :
    stop rt st = (Except.ok (), []) := by
  rcases st with ⟨c⟩
  cases c with
  | none => rfl
  | some u => simp at hc

/-- When the body of `start` fails, `start` runs the cleanup `stop` on the
state the body left behind, appends its events, and returns the original
error. -/
theorem start_of_body_error (container_name : String) (rt : Runtime) (st : FMState)
    (e : PyError) (h : (startBody container_name rt st).1 = Except.error e) :
    start container_name rt st =
      (Except.error e, (startBody container_name rt st).2.1,
       (startBody container_name rt st).2.2 ++
         (stop rt (startBody container_name rt st).2.1).2) := by
  simp only [start]
  rw [h]

/-- `start` from an explicit equation for the failing body: the cleanup
events follow, the error is unchanged. -/
theorem start_eq_of_body (container_name : String) (rt : Runtime) (st st2 : FMState)
    (e : PyError) (evs : List Ev)
    (h : startBody container_name rt st = (Except.error e, st2, evs)) :
    start container_name rt st = (Except.error e, st2, evs ++ (stop rt st2).2) := by
  simp only [start, h]

/- ------------------------------------------------------------------ -/
/- Claim theorems.                                                    -/
/- ------------------------------------------------------------------ -/

/-- C1 (counterexample): the claim says every mouse operation taking a
button parameter validates it, but `mouse_toggle` does not: for the invalid
button `bogus` it invokes the Execution Gateway and returns its result
instead of raising a ValidationError. -/
theorem C1_counterexample :
    "bogus" ∉ ["left", "right", "middle", "wheelLeft", "wheelRight"] ∧
    mouse_toggle ⟨some ()⟩ (fun _ => ⟨0, "ok"⟩) "bogus" "down" =
      (Except.ok "ok",
       [Ev.execTokens
          [robotgo_cli_path, "mouse", "toggle", "--button", "bogus", "--state", "down"]]) :=
  ⟨by decide, by rfl⟩

/-- C1 (amended): for every button outside
`{left, right, middle, wheelLeft, wheelRight}`, `mouse_click` raises a
ValidationError and never invokes the Execution Gateway; `mouse_toggle`
however performs no button validation and, for a valid state and an active
container handle, always invokes the gateway with the given button. -/
theorem C1_corrected (st : FMState) (run : Oracle) (button : String) (double : Bool)
    (h : button ∉ ["left", "right", "middle", "wheelLeft", "wheelRight"]) :
    (∃ msg, (mouse_click st run button double).1 = Except.error (PyError.valueError msg)) ∧
    (mouse_click st run button double).2 = [] ∧
    (∀ state, state ∈ ["down", "up"] → st.container = some () →
      (mouse_toggle st run button state).2 =
        [Ev.execTokens
          [robotgo_cli_path, "mouse", "toggle", "--button", button, "--state", state]]) := by
  refine ⟨⟨"Invalid mouse button. Choose from left, right, middle, wheelLeft, wheelRight.",
    ?_⟩, ?_, ?_⟩
  · simp [mouse_click, h]
  · simp [mouse_click, h]
  · intro state hstate hc
    have hs : ¬ state ∉ ["down", "up"] := not_not_intro hstate
    rw [mouse_toggle, if_neg hs]
    exact command_events st run _ hc

/-- C1 (witness for the amended theorem), at the concrete invalid button
`bogus`. -/
theorem C1_witness :
    (∃ msg, (mouse_click ⟨some ()⟩ (fun _ => ⟨0, "ok"⟩) "bogus" false).1 =
      Except.error (PyError.valueError msg)) ∧
    (mouse_click ⟨some ()⟩ (fun _ => ⟨0, "ok"⟩) "bogus" false).2 = [] ∧
    (mouse_toggle ⟨some ()⟩ (fun _ => ⟨0, "ok"⟩) "bogus" "down").2 =
      [Ev.execTokens
        [robotgo_cli_path, "mouse", "toggle", "--button", "bogus", "--state", "down"]] := by
  obtain ⟨h1, h2, h3⟩ :=
    C1_corrected ⟨some ()⟩ (fun _ => ⟨0, "ok"⟩) "bogus" false (by decide)
  exact ⟨h1, h2, h3 "down" (by decide) rfl⟩

/-- C2 (counterexample): the claim says a command is only spawned when a
name or a strictly positive pid was provided, but with no name and the
negative pid `-1` the source spawns the activation command (the truthiness
test `pid and isinstance(pid, int)` accepts any non-zero integer). -/
theorem C2_counterexample :
    ¬ (0 : Int) < -1 ∧
    (window_activate ⟨some ()⟩ (fun _ => ⟨0, "ok"⟩) none (some (-1))).2 =
      [Ev.execTokens [robotgo_cli_path, "window", "activate", "--pid", "-1"]] :=
  ⟨by decide, by rfl⟩

/-- C2 (amended): with an active container handle, `window_activate` raises
a ValidationError with no gateway invocation exactly when the name is absent
or empty and the pid is absent or zero; in every other case a command is
spawned. -/
theorem C2_corrected (st : FMState) (run : Oracle)
    (name : Option String) (pid : Option Int)
    (hc : st.container = some ()) :
    ((window_activate st run name pid).2 = [] ∧
      (∃ msg, (window_activate st run name pid).1 =
        Except.error (PyError.valueError msg)))
    ↔ (pyTruthyStr name = false ∧ pyTruthyInt pid = false) := by
  cases hn : pyTruthyStr name
  · cases hp : pyTruthyInt pid
    · simp [window_activate, hn, hp]
    · simp [window_activate, hn, hp, command_events, hc]
  · simp [window_activate, hn, command_events, hc]

/-- C2 (witness for the amended theorem), at the concrete input with no
name and no pid. -/
theorem C2_witness :
    ((window_activate ⟨some ()⟩ (fun _ => ⟨0, "ok"⟩) none none).2 = [] ∧
      (∃ msg, (window_activate ⟨some ()⟩ (fun _ => ⟨0, "ok"⟩) none none).1 =
        Except.error (PyError.valueError msg)))
    ↔ (pyTruthyStr none = false ∧ pyTruthyInt none = false) :=
  C2_corrected ⟨some ()⟩ (fun _ => ⟨0, "ok"⟩) none none rfl

/-- C3: with an active container handle, the Execution Gateway returns a
result if and only if the in-container process exits with code zero; on any
non-zero exit code it raises a failure whose message contains the joined
command string and the decoded output, and the pair returned to the caller
carries no result alongside the failure. -/
theorem C3_gateway (st : FMState) (run : Oracle) (args : List String)
    (hc : st.container = some ()) :
    ((∃ s, (command st run args).1 = Except.ok s) ↔
      (run (robotgo_cli_path :: args)).exit_code = 0) ∧
    ((run (robotgo_cli_path :: args)).exit_code ≠ 0 →
      ∃ msg a b c,
        command st run args =
          (Except.error (PyError.exception msg),
           [Ev.execTokens (robotgo_cli_path :: args)]) ∧
        msg = a ++ String.intercalate " " (robotgo_cli_path :: args) ++ b ∧
        msg = c ++ (run (robotgo_cli_path :: args)).output) := by
  constructor
  · constructor
    · rintro ⟨s, hs⟩
      by_cases h0 : (run (robotgo_cli_path :: args)).exit_code = 0
      · exact h0
      · rw [command_of_exit_nonzero st run args hc h0] at hs
        simp at hs
    · intro h0
      exact ⟨_, by rw [command_of_exit_zero st run args hc h0]⟩
  · intro h0
    refine ⟨_, "Command \x27",
      "\x27 failed with error: " ++ (run (robotgo_cli_path :: args)).output,
      "Command \x27" ++ String.intercalate " " (robotgo_cli_path :: args) ++
        "\x27 failed with error: ",
      command_of_exit_nonzero st run args hc h0, ?_, ?_⟩
    · simp [String.append_assoc]
    · rfl

/-- C3 (witness), at a concrete failing command with exit code 1 and
output `boom`. -/
theorem C3_witness :
    ((∃ s, (command ⟨some ()⟩ (fun _ => ⟨1, "boom"⟩) ["screen", "size"]).1 =
        Except.ok s) ↔ (1 : Int) = 0) ∧
    (∃ msg a b c,
      command ⟨some ()⟩ (fun _ => ⟨1, "boom"⟩) ["screen", "size"] =
        (Except.error (PyError.exception msg),
         [Ev.execTokens [robotgo_cli_path, "screen", "size"]]) ∧
      msg = a ++ String.intercalate " " [robotgo_cli_path, "screen", "size"] ++ b ∧
      msg = c ++ "boom") := by
  obtain ⟨h1, h2⟩ := C3_gateway ⟨some ()⟩ (fun _ => ⟨1, "boom"⟩) ["screen", "size"] rfl
  exact ⟨h1, h2 (by decide)⟩

/-- C4 (counterexample): the claim says a successful output is returned
with only trailing whitespace removed and leading whitespace preserved, but
Python `strip()` removes both ends: for the captured output `" a"` the
gateway returns `"a"`, while the rstrip of `" a"` is `" a"` itself. -/
theorem C4_counterexample :
    (command ⟨some ()⟩ (fun _ => ⟨0, " a"⟩) ["screen", "size"]).1 = Except.ok "a" ∧
    rstripSpec " a" = " a" ∧ (" a" : String) ≠ "a" :=
  ⟨by rfl, by rfl, by decide⟩

/-- C4 (amended): on exit code zero the gateway returns the captured output
with both its leading and its trailing whitespace removed: the result is an
infix of the output, everything removed is whitespace, and the result
neither starts nor ends with a whitespace character. -/
theorem C4_corrected (st : FMState) (run : Oracle) (args : List String)
    (hc : st.container = some ())
    (h0 : (run (robotgo_cli_path :: args)).exit_code = 0) :
    ∃ s pre post,
      (command st run args).1 = Except.ok s ∧
      (run (robotgo_cli_path :: args)).output.data = pre ++ s.data ++ post ∧
      pre.all isPySpace = true ∧ post.all isPySpace = true ∧
      (∀ hd tl, s.data = hd :: tl → isPySpace hd = false) ∧
      (∀ hd tl, s.data.reverse = hd :: tl → isPySpace hd = false) := by
  obtain ⟨pre, post, hsplit, hpre, hpost, hfst, hlst⟩ :=
    pyStrip_spec (run (robotgo_cli_path :: args)).output
  exact ⟨pyStrip (run (robotgo_cli_path :: args)).output, pre, post,
    by rw [command_of_exit_zero st run args hc h0], hsplit, hpre, hpost, hfst, hlst⟩

/-- C4 (witness for the amended theorem), at the concrete captured output
`" mid "`. -/
theorem C4_witness :
    ∃ s pre post,
      (command ⟨some ()⟩ (fun _ => ⟨0, " mid "⟩) ["screen", "size"]).1 = Except.ok s ∧
      (" mid " : String).data = pre ++ s.data ++ post ∧
      pre.all isPySpace = true ∧ post.all isPySpace = true ∧
      (∀ hd tl, s.data = hd :: tl → isPySpace hd = false) ∧
      (∀ hd tl, s.data.reverse = hd :: tl → isPySpace hd = false) :=
  C4_corrected ⟨some ()⟩ (fun _ => ⟨0, " mid "⟩) ["screen", "size"] rfl rfl

/-- C5: whenever the body of `start` fails with some error, the cleanup
`stop` is invoked on the state the body left behind (its events are
appended after the body events), the cleanup itself never raises — also
when the runtime stop signal fails, which the quantification over `rt`
covers — and the original failure is the one `start` returns. -/
theorem C5_cleanup (container_name : String) (rt : Runtime) (st : FMState)
    (e : PyError) (h : (startBody container_name rt st).1 = Except.error e) :
    (start container_name rt st).1 = Except.error e ∧
    (stop rt (startBody container_name rt st).2.1).1 = Except.ok () ∧
    (start container_name rt st).2.2 =
      (startBody container_name rt st).2.2 ++
        (stop rt (startBody container_name rt st).2.1).2 := by
  rw [start_of_body_error container_name rt st e h]
  exact ⟨rfl, stop_never_raises rt _, rfl⟩

/-- C5 (witness): the first status refresh raises, the cleanup stop signal
itself fails, and yet `start` returns the original reload error with the
stop signal issued after the body events. -/
theorem C5_witness :
    (start "box" rtReloadBoom ⟨none⟩).1 =
      Except.error (PyError.runtimeError "reload boom") ∧
    (stop rtReloadBoom (startBody "box" rtReloadBoom ⟨none⟩).2.1).1 = Except.ok () ∧
    (start "box" rtReloadBoom ⟨none⟩).2.2 =
      (startBody "box" rtReloadBoom ⟨none⟩).2.2 ++
        (stop rtReloadBoom (startBody "box" rtReloadBoom ⟨none⟩).2.1).2 :=
  C5_cleanup "box" rtReloadBoom ⟨none⟩ (PyError.runtimeError "reload boom") rfl

/-- C6: on the attach or create path, when the first refreshed status is
not `running`, the start signal, the fixed wait and the second refresh each
happen exactly once; when the second status is still not `running`,
`startBody` fails with the startup failure carrying that status, `start`
returns that failure, and over the whole `start` call the start signal and
the wait happened exactly once — no further retry. -/
theorem C6_bounded_retry (container_name : String) (rt : Runtime) (st : FMState)
    (s1 s2 : String)
    (h1 : rt.reload1 = Except.ok s1) (hn1 : s1 ≠ "running")
    (hs : rt.startOutcome = Except.ok ()) (h2 : rt.reload2 = Except.ok s2)
    (hn2 : s2 ≠ "running")
    (hget : rt.getOutcome = GetOutcome.found ∨
      (rt.getOutcome = GetOutcome.notFound ∧ rt.runOutcome = Except.ok ())) :
    ∃ pre, (pre = [Ev.getContainer] ∨ pre = [Ev.getContainer, Ev.createContainer]) ∧
      startBody container_name rt st =
        (Except.error (PyError.exception
          ("Container \x27" ++ container_name ++ "\x27 failed to start (status: " ++
            s2 ++ ").")),
         (⟨some ()⟩ : FMState),
         pre ++ [Ev.reloadStatus, Ev.startSignal, Ev.sleepWait, Ev.reloadStatus]) ∧
      (start container_name rt st).1 =
        Except.error (PyError.exception
          ("Container \x27" ++ container_name ++ "\x27 failed to start (status: " ++
            s2 ++ ").")) ∧
      (start container_name rt st).2.2.count Ev.startSignal = 1 ∧
      (start container_name rt st).2.2.count Ev.sleepWait = 1 := by
  have hafter : ∀ evs, startAfterAttach container_name rt (⟨some ()⟩ : FMState) evs =
      (Except.error (PyError.exception
        ("Container \x27" ++ container_name ++ "\x27 failed to start (status: " ++
          s2 ++ ").")),
       (⟨some ()⟩ : FMState),
       evs ++ [Ev.reloadStatus, Ev.startSignal, Ev.sleepWait, Ev.reloadStatus]) := by
    intro evs
    simp [startAfterAttach, h1, hn1, hs, h2, hn2]
  have hstop : (stop rt (⟨some ()⟩ : FMState)).2 = [Ev.stopSignal] :=
    stop_snd_some rt ⟨some ()⟩ rfl
  rcases hget with hget | ⟨hget, hrun⟩
  · have hbody : startBody container_name rt st =
        (Except.error (PyError.exception
          ("Container \x27" ++ container_name ++ "\x27 failed to start (status: " ++
            s2 ++ ").")),
         (⟨some ()⟩ : FMState),
         [Ev.getContainer] ++
           [Ev.reloadStatus, Ev.startSignal, Ev.sleepWait, Ev.reloadStatus]) := by
      simp only [startBody, hget]
      exact hafter [Ev.getContainer]
    have hstart := start_eq_of_body container_name rt st ⟨some ()⟩ _ _ hbody
    refine ⟨[Ev.getContainer], Or.inl rfl, hbody, ?_, ?_, ?_⟩
    · rw [hstart]
    · rw [hstart]
      dsimp only
      rw [hstop]
      decide
    · rw [hstart]
      dsimp only
      rw [hstop]
      decide
  · have hbody : startBody container_name rt st =
        (Except.error (PyError.exception
          ("Container \x27" ++ container_name ++ "\x27 failed to start (status: " ++
            s2 ++ ").")),
         (⟨some ()⟩ : FMState),
         [Ev.getContainer, Ev.createContainer] ++
           [Ev.reloadStatus, Ev.startSignal, Ev.sleepWait, Ev.reloadStatus]) := by
      simp only [startBody, hget, hrun]
      exact hafter [Ev.getContainer, Ev.createContainer]
    have hstart := start_eq_of_body container_name rt st ⟨some ()⟩ _ _ hbody
    refine ⟨[Ev.getContainer, Ev.createContainer], Or.inr rfl, hbody, ?_, ?_, ?_⟩
    · rw [hstart]
    · rw [hstart]
      dsimp only
      rw [hstop]
      decide
    · rw [hstart]
      dsimp only
      rw [hstop]
      decide

/-- C6 (witness): a found container whose status stays `created` then
`exited` across the bounded retry. -/
theorem C6_witness :
    ∃ pre, (pre = [Ev.getContainer] ∨ pre = [Ev.getContainer, Ev.createContainer]) ∧
      startBody "box" rtNeverRuns ⟨none⟩ =
        (Except.error (PyError.exception
          "Container \x27box\x27 failed to start (status: exited)."),
         (⟨some ()⟩ : FMState),
         pre ++ [Ev.reloadStatus, Ev.startSignal, Ev.sleepWait, Ev.reloadStatus]) ∧
      (start "box" rtNeverRuns ⟨none⟩).1 =
        Except.error (PyError.exception
          "Container \x27box\x27 failed to start (status: exited).") ∧
      (start "box" rtNeverRuns ⟨none⟩).2.2.count Ev.startSignal = 1 ∧
      (start "box" rtNeverRuns ⟨none⟩).2.2.count Ev.sleepWait = 1 := by
  have h := C6_bounded_retry "box" rtNeverRuns ⟨none⟩ "created" "exited"
    rfl (by decide) rfl rfl (by decide) (Or.inl rfl)
  exact h

/-- C7: `stop` never raises: with no container handle it is a no-op, and
with a handle it issues the stop signal and absorbs any failure of it.
Since `stop` leaves the state unchanged, repeated calls behave the same
and never raise either. -/
theorem C7_stop (rt : Runtime) (st : FMState) :
    (stop rt st).1 = Except.ok () ∧
    (st.container = none → stop rt st = (Except.ok (), [])) ∧
    (st.container = some () → (stop rt st).2 = [Ev.stopSignal]) :=
  ⟨stop_never_raises rt st,
   fun hc => stop_of_none rt st hc,
   fun hc => stop_snd_some rt st hc⟩

/-- C7 (witness): a stop without a handle is a no-op, and a stop whose
runtime signal fails still returns without raising. -/
theorem C7_witness :
    (stop rtHappy ⟨none⟩).1 = Except.ok () ∧
    stop rtHappy ⟨none⟩ = (Except.ok (), []) ∧
    (stop rtLookupBoom ⟨some ()⟩).2 = [Ev.stopSignal] := by
  obtain ⟨h1, h2, _⟩ := C7_stop rtHappy ⟨none⟩
  obtain ⟨_, _, h3⟩ := C7_stop rtLookupBoom ⟨some ()⟩
  exact ⟨h1, h2 rfl, h3 rfl⟩

/-- C8: when the existence probe exits with code zero, the Bootstrap
Installer returns at once having executed only the probe — in particular
the download command is never executed. -/
theorem C8_idempotent (rt : Runtime)
    (h : (rt.execShellRun check_cmd).exit_code = 0) :
    install_robotgo_cli_in_container rt = (Except.ok (), [Ev.execShell check_cmd]) ∧
    Ev.execShell curl_cmd ∉ (install_robotgo_cli_in_container rt).2 := by
  have h1 : install_robotgo_cli_in_container rt =
      (Except.ok (), [Ev.execShell check_cmd]) := by
    simp [install_robotgo_cli_in_container, h]
  refine ⟨h1, ?_⟩
  rw [h1]
  decide

/-- C8 (witness): the probe of `rtHappy` reports the tool present. -/
theorem C8_witness :
    install_robotgo_cli_in_container rtHappy =
      (Except.ok (), [Ev.execShell check_cmd]) ∧
    Ev.execShell curl_cmd ∉ (install_robotgo_cli_in_container rtHappy).2 :=
  C8_idempotent rtHappy rfl

/-- C9 (counterexample): the claim says a domain command issued after
`stop()` raises an UninitializedSession error, but `stop` does not clear
the container handle (the embedded state after `start` is unchanged by
`stop`), so a subsequent domain call is executed against the stopped
container and returns a result — no error of any kind is raised by the
manager. -/
theorem C9_counterexample :
    (start "box" rtHappy ⟨none⟩).1 = Except.ok () ∧
    (stop rtHappy (start "box" rtHappy ⟨none⟩).2.1).1 = Except.ok () ∧
    screen_size (start "box" rtHappy ⟨none⟩).2.1 (fun _ => ⟨0, "1024x768"⟩) =
      (Except.ok "1024x768", [Ev.execTokens [robotgo_cli_path, "screen", "size"]]) :=
  ⟨by rfl, by rfl, by rfl⟩

/-- C9 (amended): the source has no UninitializedSession guard.  Before
`start`, with the handle absent, a domain call fails only through the
attribute access on the `None` handle, without invoking the gateway; with a
handle present — as after `stop`, which does not clear it — the call goes
straight to the gateway. -/
theorem C9_corrected (run : Oracle) (args : List String) (st : FMState) :
    (st.container = none →
      command st run args =
        (Except.error (PyError.attributeError
          "NoneType object has no attribute exec_run"), [])) ∧
    (st.container = some () →
      (command st run args).2 = [Ev.execTokens (robotgo_cli_path :: args)]) :=
  ⟨fun hc => command_of_none st run args hc,
   fun hc => command_events st run args hc⟩

/-- C9 (witness for the amended theorem): a call without a handle raises
the attribute error and spawns nothing; a call with a handle spawns. -/
theorem C9_witness :
    command ⟨none⟩ (fun _ => ⟨0, "ok"⟩) ["screen", "size"] =
      (Except.error (PyError.attributeError
        "NoneType object has no attribute exec_run"), []) ∧
    (command ⟨some ()⟩ (fun _ => ⟨0, "ok"⟩) ["screen", "size"]).2 =
      [Ev.execTokens [robotgo_cli_path, "screen", "size"]] := by
  obtain ⟨h1, _⟩ := C9_corrected (fun _ => ⟨0, "ok"⟩) ["screen", "size"] ⟨none⟩
  obtain ⟨_, h2⟩ := C9_corrected (fun _ => ⟨0, "ok"⟩) ["screen", "size"] ⟨some ()⟩
  exact ⟨h1 rfl, h2 rfl⟩

/-- C10: `screen_capture` validates all four coordinates also in full-screen
mode — any negative coordinate raises a ValidationError before anything is
spawned (the first negative one in x, y, width, height order names the
message) — and with non-negative values and `full` the encoded command is
exactly `[executablePath, screen, capture, --full]`, independent of the
coordinate values. -/
theorem C10_full_capture (st : FMState) (run : Oracle) (x y width height : Int)
    (full : Bool) :
    (x < 0 ∨ y < 0 ∨ width < 0 ∨ height < 0 →
      (∃ msg, (screen_capture st run x y width height full).1 =
        Except.error (PyError.valueError msg)) ∧
      (screen_capture st run x y width height full).2 = []) ∧
    (0 ≤ x → 0 ≤ y → 0 ≤ width → 0 ≤ height → st.container = some () →
      (screen_capture st run x y width height true).2 =
        [Ev.execTokens [robotgo_cli_path, "screen", "capture", "--full"]]) := by
  constructor
  · intro hneg
    rcases lt_or_le x 0 with hx | hx
    · refine ⟨⟨"x must be a non-negative integer", ?_⟩, ?_⟩ <;>
        simp [screen_capture, hx]
    rcases lt_or_le y 0 with hy | hy
    · refine ⟨⟨"y must be a non-negative integer", ?_⟩, ?_⟩ <;>
        simp [screen_capture, hx.not_lt, hy]
    rcases lt_or_le width 0 with hw | hw
    · refine ⟨⟨"width must be a non-negative integer", ?_⟩, ?_⟩ <;>
        simp [screen_capture, hx.not_lt, hy.not_lt, hw]
    rcases lt_or_le height 0 with hh | hh
    · refine ⟨⟨"height must be a non-negative integer", ?_⟩, ?_⟩ <;>
        simp [screen_capture, hx.not_lt, hy.not_lt, hw.not_lt, hh]
    · exfalso
      rcases hneg with h | h | h | h
      exacts [absurd h hx.not_lt, absurd h hy.not_lt, absurd h hw.not_lt,
        absurd h hh.not_lt]
  · intro hx hy hw hh hc
    simp [screen_capture, hx.not_lt, hy.not_lt, hw.not_lt, hh.not_lt,
      command_events, hc]

/-- C10 (witness): a negative x raises also in full mode with nothing
spawned; non-negative values in full mode spawn exactly the full-screen
capture command. -/
theorem C10_witness :
    ((∃ msg, (screen_capture ⟨some ()⟩ (fun _ => ⟨0, "img"⟩) (-1) 0 5 5 true).1 =
        Except.error (PyError.valueError msg)) ∧
      (screen_capture ⟨some ()⟩ (fun _ => ⟨0, "img"⟩) (-1) 0 5 5 true).2 = []) ∧
    (screen_capture ⟨some ()⟩ (fun _ => ⟨0, "img"⟩) 7 8 5 5 true).2 =
      [Ev.execTokens [robotgo_cli_path, "screen", "capture", "--full"]] := by
  obtain ⟨h1, _⟩ := C10_full_capture ⟨some ()⟩ (fun _ => ⟨0, "img"⟩) (-1) 0 5 5 true
  obtain ⟨_, h2⟩ := C10_full_capture ⟨some ()⟩ (fun _ => ⟨0, "img"⟩) 7 8 5 5 true
  exact ⟨h1 (Or.inl (by decide)),
    h2 (by decide) (by decide) (by decide) (by decide) rfl⟩

end FM
